import Mathlib

/-!
Verification of the GPS caching core of a React Native app.

The program keeps a bounded window (at most 120 entries, newest first) of
GPS samples in an optional durable key-value store (`AsyncStorage`), throttles
how often incoming samples are persisted (at most one append per 5000 ms),
and re-reads the window on a polling cadence for display.

Embedding choices:
  * JavaScript numbers are modelled as rationals (`ℚ`); no claim depends on
    float64 rounding.
  * The stored string under the cache key is modelled at the JSON level: a
    stored blob is either a string that fails `JSON.parse` (`Blob.invalid`,
    e.g. the literal `"not json"`) or a string that parses to a JSON value
    (`Blob.json j`).  `JSON.parse` / `JSON.stringify` of the JavaScript
    runtime are the bijection between those strings and `JSON` values.
  * The store is a single key, so its state is `available : Bool` (whether
    the `@react-native-async-storage/async-storage` module resolves) plus the
    optional blob under `gps_cache_v1`.
  * `async` functions are single-actor state transformers; a promise
    rejection is `Except.error`.
-/

/-- JSON values, with numbers as rationals. -/
inductive JSON where
  | null : JSON
  | bool : Bool → JSON
  | num : ℚ → JSON
  | str : String → JSON
  | arr : List JSON → JSON
  | obj : List (String × JSON) → JSON

/-- One GPS sample, `GPSDataPoint` of `src/features/gps/types/gps.ts`:
latitude, longitude and timestamp are JS numbers, altitude and accuracy are
`number | null` (absent modelled as `none`). -/
structure GPSDataPoint where
  latitude : ℚ
  longitude : ℚ
  altitude : Option ℚ
  accuracy : Option ℚ
  timestamp : ℚ
deriving DecidableEq

/-- The JSON object `JSON.stringify` produces for a `GPSDataPoint`: its five
keys in declaration order, with `null` for an absent altitude/accuracy. -/
def pointToJSON (p : GPSDataPoint) : JSON :=
  JSON.obj
    [ ("latitude", JSON.num p.latitude)
    , ("longitude", JSON.num p.longitude)
    , ("altitude", match p.altitude with | none => JSON.null | some a => JSON.num a)
    , ("accuracy", match p.accuracy with | none => JSON.null | some a => JSON.num a)
    , ("timestamp", JSON.num p.timestamp) ]

/-- A stored string blob, seen through `JSON.parse`: either a string that
fails to parse (such as the literal `"not json"`), or one parsing to `j`. -/
inductive Blob where
  | invalid : Blob
  | json : JSON → Blob

/-- State of the durable store: whether the storage module resolves
(`getAsyncStorage() !== null`) and the value under the key `gps_cache_v1`
(`none` = absent key). -/
structure Store where
  available : Bool
  value : Option Blob

/-- `MAX_CACHE_ITEMS` of `gpsCache.ts`. -/
def MAX_CACHE_ITEMS : ℕ := 120

/-- The body of `getCachedGPSData` after `getItem` resolves: absent key gives
`[]`; a blob that fails `JSON.parse` gives `[]` (the `catch` branch); a parsed
value that is not an array gives `[]` (the `Array.isArray` check); an array is
returned as-is, elements uninspected. -/
def parseCache : Option Blob → List JSON
  | none => []
  | some Blob.invalid => []
  | some (Blob.json (JSON.arr xs)) => xs
  | some (Blob.json _) => []

/-- Behavior of the `getItem` promise of the store on the cache key: it resolves
with a value (`ok`, where `none` is an absent key) or rejects (`fail`). -/
inductive GetBehavior where
  | ok : Option Blob → GetBehavior
  | fail : GetBehavior

/-- `getCachedGPSData` of `gpsCache.ts`, for a given availability of the
storage module and a given behavior of `getItem`.  When the module is absent
it returns `[]` without touching the store.  The `try`/`catch` wraps only the
`JSON.parse` call, not the `await asyncStorage.getItem(...)`, so a rejection
of `getItem` itself propagates to the caller (`Except.error`). -/
def getCachedGPSData (available : Bool) (g : GetBehavior) : Except Unit (List JSON) :=
  if available then
    match g with
    | GetBehavior.fail => Except.error ()
    | GetBehavior.ok v => Except.ok (parseCache v)
  else
    Except.ok []

/-- `getCachedGPSData` on a store whose `getItem` resolves with the stored
value (the well-behaved store): the list it returns. -/
def readStore (st : Store) : List JSON :=
  if st.available then parseCache st.value else []

/-- `appendGPSData` of `gpsCache.ts` on a well-behaved store: if the storage
module is absent, return `[]` and leave the store untouched; otherwise read
the current window, prepend the new point, truncate to `MAX_CACHE_ITEMS`,
write the serialized result back and return it. -/
def appendGPSData (point : GPSDataPoint) (st : Store) : Store × List JSON :=
  if st.available then
    let next := (pointToJSON point :: readStore st).take MAX_CACHE_ITEMS
    ({ st with value := some (Blob.json (JSON.arr next)) }, next)
  else
    (st, [])

/-- Appending a list of samples in order, threading the store. -/
def appendAll (ps : List GPSDataPoint) (st : Store) : Store :=
  ps.foldl (fun s p => (appendGPSData p s).1) st

/-- An available store with no value under the cache key. -/
def store0 : Store := { available := true, value := none }

/-- The window persisted under the cache key, as `getCachedGPSData` would
parse it. -/
def storedWindow (st : Store) : List JSON :=
  parseCache st.value

theorem readStore_store0 : readStore store0 = [] := rfl

theorem appendGPSData_available (p : GPSDataPoint) (st : Store) :
    ((appendGPSData p st).1).available = st.available := by
  unfold appendGPSData
  by_cases h : st.available <;> simp [h]

theorem readStore_appendGPSData (p : GPSDataPoint) (st : Store)
    (h : st.available = true) :
    readStore (appendGPSData p st).1
      = (pointToJSON p :: readStore st).take MAX_CACHE_ITEMS := by
  simp [appendGPSData, readStore, h, parseCache]

theorem take_append_take (a l : List JSON) (n : ℕ) :
    (a ++ l.take n).take n = (a ++ l).take n := by
  rw [List.take_append_eq_append_take, List.take_append_eq_append_take,
    List.take_take, Nat.min_eq_left (Nat.sub_le n a.length)]

theorem readStore_appendAll (ps : List GPSDataPoint) (st : Store)
    (h : st.available = true)
    (hlen : (readStore st).length ≤ MAX_CACHE_ITEMS) :
    readStore (appendAll ps st)
      = ((ps.map pointToJSON).reverse ++ readStore st).take MAX_CACHE_ITEMS := by
  induction ps generalizing st with
  | nil =>
      simp [appendAll, List.take_of_length_le hlen]
  | cons p ps ih =>
      have hst' : ((appendGPSData p st).1).available = true := by
        rw [appendGPSData_available]; exact h
      have hread : readStore (appendGPSData p st).1
          = (pointToJSON p :: readStore st).take MAX_CACHE_ITEMS :=
        readStore_appendGPSData p st h
      have hlen' : (readStore (appendGPSData p st).1).length ≤ MAX_CACHE_ITEMS := by
        rw [hread]
        simp
      have hAll : appendAll (p :: ps) st = appendAll ps (appendGPSData p st).1 := rfl
      rw [hAll, ih (appendGPSData p st).1 hst' hlen', hread]
      rw [take_append_take]
      simp

/-- A concrete sample used to instantiate theorems with hypotheses. -/
def sample0 : GPSDataPoint :=
  { latitude := 1, longitude := 2, altitude := none, accuracy := none, timestamp := 0 }

/-- C1: appending `s1, …, sk` via `appendGPSData` to an available store with an
absent key makes `getCachedGPSData` return `[sk, …, s1]` (as stored JSON
objects) truncated to the first 120 entries; and appending to a full 120-item
window keeps the new point plus the first 119 old ones (dropping exactly the
last, i.e. oldest, entry). -/
theorem fifo_order_and_eviction :
    (∀ ps : List GPSDataPoint,
        readStore (appendAll ps store0) = ((ps.map pointToJSON).reverse).take 120)
    ∧ (∀ (w : List JSON) (p : GPSDataPoint), w.length = 120 →
        (appendGPSData p { available := true, value := some (Blob.json (JSON.arr w)) }).2
          = pointToJSON p :: w.dropLast) := by
  constructor
  · intro ps
    have h := readStore_appendAll ps store0 rfl (by simp [readStore_store0])
    simpa [readStore_store0, MAX_CACHE_ITEMS] using h
  · intro w p hw
    have hdrop : w.dropLast = w.take 119 := by
      rw [List.dropLast_eq_take, hw]
    simp [appendGPSData, readStore, parseCache, MAX_CACHE_ITEMS, hdrop]

/-- Witness for C1 at a one-sample trajectory and at a concrete full
120-element window. -/
theorem fifo_order_and_eviction_witness :
    readStore (appendAll [sample0] store0) = [pointToJSON sample0]
    ∧ (appendGPSData sample0
        { available := true
        , value := some (Blob.json (JSON.arr (List.replicate 120 JSON.null))) }).2
      = pointToJSON sample0 :: (List.replicate 120 JSON.null).dropLast := by
  constructor
  · have h := fifo_order_and_eviction.1 [sample0]
    simpa using h
  · exact fifo_order_and_eviction.2 (List.replicate 120 JSON.null) sample0 (by simp)

/-- C2: from an empty window on an available store, N appends leave a window
of length `min N 120`, and `appendGPSData` preserves the invariant that the
persisted window has at most 120 entries. -/
theorem capacity_invariant :
    (∀ ps : List GPSDataPoint,
        (readStore (appendAll ps store0)).length = min ps.length 120)
    ∧ (∀ (st : Store) (p : GPSDataPoint),
        (storedWindow st).length ≤ 120 →
        (storedWindow (appendGPSData p st).1).length ≤ 120) := by
  constructor
  · intro ps
    have h := readStore_appendAll ps store0 rfl (by simp [readStore_store0])
    rw [h]
    simp [readStore_store0, MAX_CACHE_ITEMS, Nat.min_comm]
  · intro st p h
    by_cases ha : st.available
    · simp [appendGPSData, ha, storedWindow, parseCache, MAX_CACHE_ITEMS]
    · simpa [appendGPSData, ha] using h

/-- Witness for C2 at a one-sample trajectory and at the empty available
store. -/
theorem capacity_invariant_witness :
    (readStore (appendAll [sample0] store0)).length = min 1 120
    ∧ (storedWindow (appendGPSData sample0 store0).1).length ≤ 120 := by
  constructor
  · have h := capacity_invariant.1 [sample0]
    simpa using h
  · exact capacity_invariant.2 store0 sample0 (by simp [storedWindow, store0, parseCache])

/-- C3: when the storage module cannot be resolved, `getCachedGPSData`
returns `[]` whatever `getItem` would do (it is never called),
`appendGPSData x` returns `[]` and leaves the store state untouched, so a
later read with the store available again shows no trace of `x`. -/
theorem unavailable_degradation (st : Store) (x : GPSDataPoint)
    (h : st.available = false) :
    (∀ g : GetBehavior, getCachedGPSData st.available g = Except.ok [])
    ∧ (appendGPSData x st).2 = []
    ∧ (appendGPSData x st).1 = st
    ∧ readStore { available := true, value := ((appendGPSData x st).1).value }
        = readStore { available := true, value := st.value } := by
  refine ⟨?_, ?_, ?_, ?_⟩
  · intro g
    simp [getCachedGPSData, h]
  · simp [appendGPSData, h]
  · simp [appendGPSData, h]
  · simp [appendGPSData, h]

/-- Witness for C3 at an unavailable store already holding a window. -/
theorem unavailable_degradation_witness :
    (∀ g : GetBehavior, getCachedGPSData (false : Bool) g = Except.ok [])
    ∧ (appendGPSData sample0
        { available := false, value := some (Blob.json (JSON.arr [JSON.null])) }).2 = []
    ∧ (appendGPSData sample0
        { available := false, value := some (Blob.json (JSON.arr [JSON.null])) }).1
      = { available := false, value := some (Blob.json (JSON.arr [JSON.null])) } := by
  have h := unavailable_degradation
    { available := false, value := some (Blob.json (JSON.arr [JSON.null])) } sample0 rfl
  exact ⟨h.1, h.2.1, h.2.2.1⟩

/-- C4: any stored blob that is not a JSON array — a string failing
`JSON.parse` such as `"not json"`, or a JSON object — makes
`getCachedGPSData` return `[]` without raising. -/
theorem malformed_blob_reads_empty (b : Blob)
    (h : ∀ xs : List JSON, b ≠ Blob.json (JSON.arr xs)) :
    getCachedGPSData true (GetBehavior.ok (some b)) = Except.ok [] := by
  cases b with
  | invalid => rfl
  | json j =>
      cases j with
      | null => rfl
      | bool _ => rfl
      | num _ => rfl
      | str _ => rfl
      | obj _ => rfl
      | arr xs => exact absurd rfl (h xs)

/-- Witness for C4 at an unparseable blob and at a JSON object blob. -/
theorem malformed_blob_reads_empty_witness :
    getCachedGPSData true (GetBehavior.ok (some Blob.invalid)) = Except.ok []
    ∧ getCachedGPSData true (GetBehavior.ok (some (Blob.json (JSON.obj []))))
        = Except.ok [] :=
  ⟨malformed_blob_reads_empty Blob.invalid (fun _ hx => by simp at hx),
   malformed_blob_reads_empty (Blob.json (JSON.obj [])) (fun _ hx => by simp at hx)⟩

/-- C5 counterexample: the `try`/`catch` of `getCachedGPSData` wraps only the
`JSON.parse` call, so when the underlying `getItem` promise itself rejects,
the rejection propagates to the caller instead of yielding a sequence. -/
theorem read_raises_when_get_rejects :
    getCachedGPSData true GetBehavior.fail = Except.error () := rfl

/-- C5 amended: whenever the store is unavailable or the underlying `getItem`
resolves (absent key, malformed blob, any stored value), `getCachedGPSData`
returns a sequence and never raises; only a rejection of `getItem` itself
propagates. -/
theorem read_never_raises_when_get_resolves (available : Bool) (v : Option Blob) :
    ∃ l : List JSON, getCachedGPSData available (GetBehavior.ok v) = Except.ok l := by
  cases available with
  | true => exact ⟨parseCache v, rfl⟩
  | false => exact ⟨[], rfl⟩

/-- C10: a stored blob parsing to a JSON array is returned element-for-element
with no per-element validation, whatever the elements are (e.g. an array of
bare numbers). -/
theorem array_elements_returned_as_is (xs : List JSON) :
    getCachedGPSData true (GetBehavior.ok (some (Blob.json (JSON.arr xs))))
      = Except.ok xs := rfl

/-- The 5000 ms persistence window of the watch callback of the GPS screen. -/
def WINDOW_MS : ℚ := 5000

/-- The throttle in the success callback of `startLocationWatch`: given the value
of `lastCachedAtRef.current` and `Date.now()`, decide whether the sample is
admitted to `appendGPSData` (`now - last >= 5000`) and compute the new ref
value (`now` on admission, unchanged otherwise). -/
def throttleStep (last now : ℚ) : Bool × ℚ :=
  if WINDOW_MS ≤ now - last then (true, now) else (false, last)

/-- Running the throttle over a sequence of `Date.now()` arrival times,
returning the number of samples admitted to `appendGPSData` and the final
value of `lastCachedAtRef.current`. -/
def throttleRun : List ℚ → ℚ → ℕ × ℚ
  | [], last => (0, last)
  | t :: ts, last =>
      let s := throttleStep last t
      let r := throttleRun ts s.2
      (if s.1 then r.1 + 1 else r.1, r.2)

/-- The number of samples a run of the throttle admits to `appendGPSData`. -/
def admittedCount (times : List ℚ) (last : ℚ) : ℕ :=
  (throttleRun times last).1

/-- Fifty arrival times spanning 10100 ms with even spacing (10100/49 ms
between consecutive samples), starting 100000 ms past the epoch. -/
def evenBurst : List ℚ :=
  (List.range 50).map (fun i : ℕ => (100000 : ℚ) + i * (10100 / 49))

theorem throttleRun_all_dropped (ts : List ℚ) (last : ℚ)
    (h : ∀ t ∈ ts, t - last < WINDOW_MS) :
    throttleRun ts last = (0, last) := by
  induction ts with
  | nil => rfl
  | cons t ts ih =>
      have hstep : throttleStep last t = (false, last) := by
        unfold throttleStep
        rw [if_neg (not_le.mpr (h t (List.mem_cons_self t ts)))]
      simp [throttleRun, hstep, ih (fun u hu => h u (List.mem_cons_of_mem t hu))]

/-- C6: a sample is admitted iff `now - last ≥ 5000`, admission updates the
last-admitted time to `now` and a drop leaves it unchanged; a burst of 50
samples within 4900 ms (first one arriving at least 5000 ms past the epoch,
throttle in its initial state) admits exactly 1; the 50-sample burst spanning
10100 ms with even spacing admits exactly 2. -/
theorem throttle_admits_once_per_window :
    (∀ last now : ℚ,
        ((throttleStep last now).1 = true ↔ WINDOW_MS ≤ now - last)
        ∧ (throttleStep last now).2
            = (if WINDOW_MS ≤ now - last then now else last))
    ∧ (∀ (t0 : ℚ) (ts : List ℚ), ts.length = 49 → WINDOW_MS ≤ t0 →
        (∀ t ∈ ts, t0 ≤ t ∧ t ≤ t0 + 4900) →
        admittedCount (t0 :: ts) 0 = 1)
    ∧ admittedCount evenBurst 0 = 2 := by
  refine ⟨?_, ?_, ?_⟩
  · intro last now
    constructor
    · unfold throttleStep
      by_cases h : WINDOW_MS ≤ now - last <;> simp [h]
    · unfold throttleStep
      by_cases h : WINDOW_MS ≤ now - last <;> simp [h]
  · intro t0 ts _hlen h0 hts
    have hstep : throttleStep 0 t0 = (true, t0) := by
      unfold throttleStep
      rw [sub_zero, if_pos h0]
    have hrun : throttleRun ts t0 = (0, t0) := by
      refine throttleRun_all_dropped ts t0 (fun t ht => ?_)
      have h1 := (hts t ht).2
      unfold WINDOW_MS
      linarith
    show (throttleRun (t0 :: ts) 0).1 = 1
    simp [throttleRun, hstep, hrun]
  · set_option maxRecDepth 4000 in
    norm_num [admittedCount, evenBurst, throttleRun, throttleStep, WINDOW_MS,
      List.range_succ]

/-- Witness for C6: the equivalence at a concrete pair, and a concrete
within-4900ms burst of 50 samples all arriving at 100000 ms. -/
theorem throttle_admits_once_per_window_witness :
    ((throttleStep 0 100000).1 = true ↔ WINDOW_MS ≤ 100000 - 0)
    ∧ admittedCount (100000 :: List.replicate 49 (100000 : ℚ)) 0 = 1 := by
  constructor
  · exact (throttle_admits_once_per_window.1 0 100000).1
  · refine throttle_admits_once_per_window.2.1 100000 (List.replicate 49 100000)
      (by simp) (by norm_num [WINDOW_MS]) ?_
    intro t ht
    rw [List.eq_of_mem_replicate ht]
    norm_num

/-- C7 counterexample: with `lastCachedAtRef.current` at its sentinel 0, a
first sample whose `Date.now()` reads 0 (a clock at the epoch) is not
admitted, so `now - 0 ≥ 5000` does not hold for every arrival time `now`. -/
theorem first_sample_dropped_at_epoch_clock :
    (throttleStep 0 0).1 = false := by
  norm_num [throttleStep, WINDOW_MS]

/-- C7 amended: with the sentinel 0, the first sample is admitted for every
arrival time at least 5000 ms past the epoch — in particular for any
realistic `Date.now()` reading. -/
theorem first_sample_admitted (now : ℚ) (h : WINDOW_MS ≤ now) :
    (throttleStep 0 now).1 = true := by
  unfold throttleStep
  rw [sub_zero, if_pos h]

/-- Witness for C7 at a realistic clock reading (November 2023 in epoch
milliseconds). -/
theorem first_sample_admitted_witness :
    (throttleStep 0 1700000000000).1 = true :=
  first_sample_admitted 1700000000000 (by norm_num [WINDOW_MS])

/-- The advisory message `HomeScreen` publishes when the storage module is
missing. -/
def storageMissingMsg : String :=
  "Storage module missing. Run: npm i @react-native-async-storage/async-storage"

/-- Consumer-visible state of `HomeScreen`: the published window
(`cachedData`, initially `[]`) and the advisory message (`storageMessage`,
initially `null`). -/
structure HomeState where
  cachedData : List JSON
  storageMessage : Option String

/-- One tick of the `load` closure of `HomeScreen`: if the storage module is missing, set
the advisory message and return early (the previously published `cachedData`
is left untouched); otherwise clear the message and publish the freshly read
window. -/
def loadTick (st : Store) (h : HomeState) : HomeState :=
  if st.available then
    { cachedData := readStore st, storageMessage := none }
  else
    { h with storageMessage := some storageMissingMsg }

/-- C9 counterexample: a poll tick that fails because the store is
unavailable leaves the previously published window visible — here the
consumer still sees a one-element window, not the empty sequence the claim
requires. -/
theorem stale_window_after_unavailable_tick :
    (loadTick { available := false, value := none }
        { cachedData := [JSON.null], storageMessage := none }).cachedData
      ≠ ([] : List JSON) := by
  simp [loadTick]

/-- C9 amended: a poll tick with the store unavailable publishes the advisory
store-unavailable message and leaves the previously published window in
place, never a hard error (the tick is a total state update). -/
theorem unavailable_tick_keeps_window (st : Store) (h : HomeState)
    (hav : st.available = false) :
    loadTick st h
      = { cachedData := h.cachedData, storageMessage := some storageMissingMsg } := by
  simp [loadTick, hav]

/-- Witness for the amended C9 statement at a concrete unavailable store and a
previously published one-element window. -/
theorem unavailable_tick_keeps_window_witness :
    loadTick { available := false, value := none }
        { cachedData := [JSON.null], storageMessage := none }
      = { cachedData := [JSON.null], storageMessage := some storageMissingMsg } :=
  unavailable_tick_keeps_window
    { available := false, value := none }
    { cachedData := [JSON.null], storageMessage := none } rfl

/-- Reading a JSON value back as a nullable number field of a sample:
`null` is an absent value, a number is present, anything else is not
sample-shaped.  Modelled from the spec: the decoding direction of the §6
serialization layout, which the code leaves to an unchecked cast. -/
def numOrNull : JSON → Option (Option ℚ)
  | JSON.null => some none
  | JSON.num q => some (some q)
  | _ => none

/-- Modelled from the spec: decoding one serialized sample per the §6
layout — an object with keys `latitude, longitude, altitude, accuracy,
timestamp` in order, `altitude`/`accuracy` being `null` when absent.  The
code itself performs no per-element decoding (the parsed array is cast
unchecked), so this direction is taken from the words of the spec. -/
def decodePoint : JSON → Option GPSDataPoint
  | JSON.obj [("latitude", JSON.num la), ("longitude", JSON.num lo),
      ("altitude", alt), ("accuracy", acc), ("timestamp", JSON.num ts)] =>
      match numOrNull alt, numOrNull acc with
      | some a, some c =>
          some { latitude := la, longitude := lo, altitude := a,
                 accuracy := c, timestamp := ts }
      | _, _ => none
  | _ => none

/-- Decoding a parsed array element-by-element, failing if any element is not
sample-shaped. -/
def decodeWindowList : List JSON → Option (List GPSDataPoint)
  | [] => some []
  | x :: xs =>
      match decodePoint x, decodeWindowList xs with
      | some p, some ps => some (p :: ps)
      | _, _ => none

/-- Serializing a window: the JSON array `JSON.stringify` produces from the
list `appendGPSData` writes back. -/
def serializeWindow (w : List GPSDataPoint) : Blob :=
  Blob.json (JSON.arr (w.map pointToJSON))

/-- Deserializing a window: read the store as `getCachedGPSData` does, then
decode each element per the serialization layout. -/
def deserializeWindow (st : Store) : Option (List GPSDataPoint) :=
  decodeWindowList (readStore st)

theorem decodePoint_pointToJSON (p : GPSDataPoint) :
    decodePoint (pointToJSON p) = some p := by
  cases p with
  | mk la lo alt acc ts => cases alt <;> cases acc <;> rfl

theorem decodeWindowList_map (w : List GPSDataPoint) :
    decodeWindowList (w.map pointToJSON) = some w := by
  induction w with
  | nil => rfl
  | cons p ps ih =>
      simp [decodeWindowList, decodePoint_pointToJSON, ih]

/-- C8: serialization round-trips — deserializing a store holding the
serialized form of any valid window (absent altitude/accuracy serialized as
null) yields exactly the original window. -/
theorem serialize_roundtrip (w : List GPSDataPoint) :
    deserializeWindow { available := true, value := some (serializeWindow w) }
      = some w := by
  have hread : readStore { available := true, value := some (serializeWindow w) }
      = w.map pointToJSON := by
    simp [readStore, serializeWindow, parseCache]
  unfold deserializeWindow
  rw [hread, decodeWindowList_map]
